import Mathlib

/-!
Verification of the Source/Destination resolution core of
cdk-docker-image-deployment (src/source.ts, src/destination.ts),
shallowly embedded in Lean 4.

Modelling choices:
- External collaborators (repository handles, the asset-packaging
  service, the identity store) are explicit records and functions.
- CloudFormation deferred values (tokens built with Fn.select and
  Fn.split) are an explicit expression type CfnValue with a resolver,
  since the TypeScript code builds such an expression for the image
  tag and resolution happens only at deployment time.
- Permission-grant side effects are modelled as values: bind returns
  the list of grants it performs alongside the configuration record.
- Thrown errors are modelled with Except.
-/

namespace DockerDeploy

/-- Denotes what type of registry is provided (enum LoginType in source.ts). -/
inductive LoginType where
  | ECR
  | EXTERNALECR
deriving DecidableEq, Repr

/-- Login commands for the specified registry (interface LoginConfig in source.ts). -/
structure LoginConfig where
  loginCommand : String
  loginType : LoginType
  region : Option String
deriving DecidableEq, Repr

/-- An ECR repository handle, as the code consumes it: its resolved
account, region and base URI (ecr.IRepository with env.account,
env.region, repositoryUri). -/
structure Repository where
  account : String
  region : String
  repositoryUri : String
deriving DecidableEq, Repr

/-- repositoryUriForTag of aws-ecr: the base URI followed by a colon and the tag. -/
def Repository.repositoryUriForTag (r : Repository) (tag : String) : String :=
  r.repositoryUri ++ ":" ++ tag

/-- A pre-built image artifact (ecr_assets.DockerImageAsset): the
packaging service yields a repository handle and an image URI. -/
structure DockerImageAsset where
  imageUri : String
  repository : Repository
deriving DecidableEq, Repr

/-- The stack environment resolved from the construct scope
(Stack.of(scope).account / .region). -/
structure Stack where
  account : String
  region : String
deriving DecidableEq, Repr

/-- A permission grant issued against the external identity store:
grantPull or grantPullPush of a repository to a role. -/
inductive Grant where
  | pull (repo : Repository) (role : String)
  | pullPush (repo : Repository) (role : String)
deriving DecidableEq, Repr

/-- Split a character list at every occurrence of the delimiter.
This is the deployment-time semantics of the CloudFormation
Fn::Split intrinsic (an empty input yields the single empty group). -/
def splitOnChar (d : Char) : List Char → List (List Char)
  | [] => [[]]
  | c :: cs =>
    match splitOnChar d cs with
    | [] => if c = d then [[], []] else [[c]]
    | g :: gs => if c = d then [] :: g :: gs else (c :: g) :: gs

/-- Fn.split at the string level: split on a single-character
delimiter, which is how the code always uses it (delimiter ":"). -/
def fnSplit (d : Char) (s : String) : List String :=
  (splitOnChar d s.data).map (fun cs => String.mk cs)

/-- A deferred CloudFormation string value: either a literal, the
Fn.select of a component of an Fn.split, or a literal prefixed onto
a deferred value (string interpolation with a token inside). -/
inductive CfnValue where
  | lit (s : String)
  | select (i : Nat) (d : Char) (src : String)
  | concat (pre : String) (v : CfnValue)
deriving DecidableEq, Repr

/-- Deployment-time resolution of a deferred value. Fn::Select of an
out-of-range index has no value (the deployment fails), hence Option. -/
def CfnValue.resolve : CfnValue → Option String
  | .lit s => some s
  | .select i d src => (fnSplit d src).get? i
  | .concat p v => (CfnValue.resolve v).map (fun s => p ++ s)

/-- Source information (interface SourceConfig in source.ts). The
image URI and tag are deferred values, as in the code, where both can
be CloudFormation tokens. -/
structure SourceConfig where
  imageUri : CfnValue
  imageTag : CfnValue
  loginConfig : LoginConfig
deriving DecidableEq, Repr

/-- Bind context for Source (interface SourceContext in source.ts);
the role is identified by name. -/
structure SourceContext where
  handlerRole : String
deriving DecidableEq, Repr

/-- The registry login builder. Every bind site of the code inlines
this exact template string with loginType ECR and the region echoed:
aws ecr get-login-password piped into docker login. -/
def buildLogin (accountId : String) (region : String) : LoginConfig :=
  { loginCommand :=
      "aws ecr get-login-password --region " ++ region ++
      " | docker login --username AWS --password-stdin " ++
      accountId ++ ".dkr.ecr." ++ region ++ ".amazonaws.com"
    loginType := LoginType.ECR
    region := some region }

/-- The closed set of Source variants (classes DirectorySource,
EcrSource, AssetSource in source.ts), each carrying exactly its
construction-time parameters. The constructor names follow the static
factories Source.directory, Source.ecr, Source.asset. -/
inductive Source where
  | directory (path : String)
  | ecr (repository : Repository) (tag : String)
  | asset (a : DockerImageAsset)
deriving DecidableEq, Repr

/-- The environment a Source bind draws on: the stack of the scope,
and the external asset-packaging service that DirectorySource.bind
invokes (new ecr_assets.DockerImageAsset(scope, ..., {directory: path})). -/
structure BindEnv where
  stack : Stack
  mkAsset : String → DockerImageAsset

/-- Source.bind, by variant, straight from source.ts:
- DirectorySource.bind packages the directory into an asset, grants
  pull on the asset repository, and extracts the tag with
  Fn.select(1, Fn.split(a colon, asset.imageUri));
- EcrSource.bind grants pull and returns the construction-time tag
  unchanged;
- AssetSource computes its tag with the same select-of-split
  expression over the asset URI and its bind grants pull and returns
  repositoryUriForTag of that tag.
Returns the configuration together with the grants performed. -/
def Source.bind : Source → BindEnv → SourceContext → SourceConfig × List Grant
  | .directory path, env, context =>
    let asset := env.mkAsset path
    ( { imageUri := CfnValue.lit asset.imageUri
        imageTag := CfnValue.select 1 ':' asset.imageUri
        loginConfig := buildLogin env.stack.account env.stack.region }
      , [Grant.pull asset.repository context.handlerRole] )
  | .ecr repository tag, _, context =>
    ( { imageUri := CfnValue.lit (repository.repositoryUriForTag tag)
        imageTag := CfnValue.lit tag
        loginConfig := buildLogin repository.account repository.region }
      , [Grant.pull repository context.handlerRole] )
  | .asset a, env, context =>
    let tag := CfnValue.select 1 ':' a.imageUri
    ( { imageUri := CfnValue.concat (a.repository.repositoryUri ++ ":") tag
        imageTag := tag
        loginConfig := buildLogin env.stack.account env.stack.region }
      , [Grant.pull a.repository context.handlerRole] )

/-- Destination information (interface DestinationConfig in
destination.ts); destinationTag is optional, absent meaning the
source tag is reused downstream. -/
structure DestinationConfig where
  destinationUri : String
  loginConfig : LoginConfig
  destinationTag : Option String
deriving DecidableEq, Repr

/-- Properties for Destination.ecr (interface EcrSourceOptions in
destination.ts): an optional tag override. -/
structure EcrSourceOptions where
  tag : Option String
deriving DecidableEq, Repr

/-- The two distinct tag-validation failures thrown by
Destination.validateTag: the length error and the character error. -/
inductive TagError where
  | tooLong (tag : String) (len : Nat)
  | invalidCharacters (tag : String)
deriving DecidableEq, Repr

/-- The character class of the validation pattern between the first
character and the end: a-z, A-Z, 0-9, hyphen, underscore, dot. -/
def validTagChar (c : Char) : Bool :=
  c.isAlpha || c.isDigit || c = '-' || c = '_' || c = '.'

/-- The test of the anchored pattern in Destination.validateTag: one
character that is neither a hyphen nor a dot, followed by one or more
characters of the class validTagChar, and nothing else. -/
def matchesTagPattern (t : String) : Bool :=
  match t.data with
  | [] => false
  | c :: rest => c ≠ '-' && c ≠ '.' && !rest.isEmpty && rest.all validTagChar

/-- Destination.validateTag from destination.ts: first the length
check (throwing the maximum-128-characters error), then the pattern
check (throwing the invalid-characters error). -/
def Destination.validateTag (tag : String) : Except TagError Unit :=
  if tag.length > 128 then
    Except.error (TagError.tooLong tag tag.length)
  else if !matchesTagPattern tag then
    Except.error (TagError.invalidCharacters tag)
  else
    Except.ok ()

/-- The sole Destination variant (class EcrDestination in
destination.ts) after construction: the repository, and the options
field, which the constructor sets only when a tag override was
supplied and validated. -/
structure EcrDestination where
  repository : Repository
  options : Option EcrSourceOptions
deriving DecidableEq, Repr

/-- The factory Destination.ecr with the EcrDestination constructor
body: when a tag override is present it is validated immediately
(construction aborts on failure) and the options are stored;
otherwise the options field stays unset. -/
def Destination.ecr (repository : Repository) :
    Option EcrSourceOptions → Except TagError EcrDestination
  | some opts =>
    match opts.tag with
    | some t =>
      match Destination.validateTag t with
      | Except.error e => Except.error e
      | Except.ok _ => Except.ok { repository := repository, options := some opts }
    | none => Except.ok { repository := repository, options := none }
  | none => Except.ok { repository := repository, options := none }

/-- EcrDestination.bind from destination.ts: grants pull and push on
the repository to the role, and returns the repository URI, the login
configuration for the repository account and region, and the optional
stored tag override. -/
def EcrDestination.bind (d : EcrDestination) (role : String) :
    DestinationConfig × List Grant :=
  ( { destinationUri := d.repository.repositoryUri
      loginConfig := buildLogin d.repository.account d.repository.region
      destinationTag := d.options.bind (fun o => o.tag) }
    , [Grant.pullPush d.repository role] )

/-- Constructing Destination.ecr and then binding it: the whole
destination pipeline, so that the grants performed on each path are
explicit (a construction failure produces no grant at all). -/
def ecrDestinationThenBind (repository : Repository)
    (options : Option EcrSourceOptions) (role : String) :
    Except TagError (DestinationConfig × List Grant) :=
  match Destination.ecr repository options with
  | Except.error e => Except.error e
  | Except.ok d => Except.ok (d.bind role)

end DockerDeploy

deriving instance DecidableEq for Except

namespace DockerDeploy

/-- A concrete repository exemplar used for closed evaluations. -/
def repoEx : Repository :=
  { account := "111111111111", region := "us-east-1"
    repositoryUri := "111111111111.dkr.ecr.us-east-1.amazonaws.com/repo" }

/-- A concrete stack exemplar. -/
def stackEx : Stack := { account := "111111111111", region := "us-east-1" }

/-- A concrete source bind context exemplar. -/
def contextEx : SourceContext := { handlerRole := "handler" }

/-- An asset whose resolved image URI carries a registry port, so the
URI contains a colon before the tag colon. -/
def assetPortEx : DockerImageAsset :=
  { imageUri := "registry.example.com:5000/repo/image:v1.2.3", repository := repoEx }

/-- A bind environment whose packaging service resolves to assetPortEx. -/
def envPortEx : BindEnv := { stack := stackEx, mkAsset := fun _ => assetPortEx }

/-- An asset whose resolved image URI is the empty string, hence a
degenerate reference with no colon at all. -/
def assetEmptyEx : DockerImageAsset := { imageUri := "", repository := repoEx }

/-- A bind environment whose packaging service resolves to assetEmptyEx. -/
def envEmptyEx : BindEnv := { stack := stackEx, mkAsset := fun _ => assetEmptyEx }

/-- A concrete destination exemplar constructed without a tag override. -/
def destEx : EcrDestination := { repository := repoEx, options := none }

/-- Claim C1: the claim states that for the Directory and Asset source
variants the tag placed in SourceConfig.imageTag is the substring of
the resolved URI after the last colon, so that the URI
registry.example.com:5000/repo/image:v1.2.3 yields v1.2.3. The code
instead computes Fn.select of index 1 of Fn.split on the colon, which
resolves to the second colon-separated segment: evaluated at exactly
that URI, both variants produce 5000/repo/image and not v1.2.3. -/
theorem c1_tag_extraction_second_segment :
    (((Source.directory "app").bind envPortEx contextEx).1.imageTag).resolve
        = some "5000/repo/image" ∧
    (((Source.asset assetPortEx).bind envPortEx contextEx).1.imageTag).resolve
        = some "5000/repo/image" ∧
    some "5000/repo/image" ≠ some "v1.2.3" := by
  refine ⟨rfl, rfl, by decide⟩

/-- Claim C2: the claim states that every valid tag of length at least
one is accepted by Destination.validateTag. The code rejects the
one-character tag a, even though it lies in the allowed alphabet and
does not start with a hyphen or a dot, because the anchored pattern
demands a first character followed by one or more further characters:
validateTag a returns the invalid-characters error. -/
theorem c2_single_character_tag_rejected :
    "a".length = 1 ∧ "a".data.all validTagChar = true ∧
    ('a' ≠ '-' ∧ 'a' ≠ '.') ∧
    Destination.validateTag "a" = Except.error (TagError.invalidCharacters "a") := by
  refine ⟨rfl, rfl, by decide, by decide⟩

/-- Claim C3: if the tag override supplied to Destination.ecr fails
tag validation, construction itself fails with that validation error,
and the composed construct-then-bind pipeline also fails before any
configuration or grant is produced: no grant side effect occurs on
the error path. -/
theorem c3_invalid_tag_aborts_construction_no_grant
    (repository : Repository) (opts : EcrSourceOptions) (role : String)
    (t : String) (e : TagError)
    (htag : opts.tag = some t)
    (herr : Destination.validateTag t = Except.error e) :
    Destination.ecr repository (some opts) = Except.error e ∧
    ecrDestinationThenBind repository (some opts) role = Except.error e := by
  constructor
  · simp [Destination.ecr, htag, herr]
  · simp [ecrDestinationThenBind, Destination.ecr, htag, herr]

/-- Witness for claim C3 at the concrete override .bad from the spec:
construction and the whole pipeline fail with the character error. -/
theorem c3_witness :
    Destination.ecr repoEx (some { tag := some ".bad" })
        = Except.error (TagError.invalidCharacters ".bad") ∧
    ecrDestinationThenBind repoEx (some { tag := some ".bad" }) "handler"
        = Except.error (TagError.invalidCharacters ".bad") :=
  c3_invalid_tag_aborts_construction_no_grant repoEx { tag := some ".bad" } "handler"
    ".bad" (TagError.invalidCharacters ".bad") rfl (by decide)

/-- Claim C4: every string longer than 128 characters fails validation
with the distinct too-long error, because the length rule is checked
before the pattern rule, and that error is distinguishable from the
invalid-characters error for every tag. -/
theorem c4_too_long_reported_distinctly (t : String) (h : t.length > 128) :
    Destination.validateTag t = Except.error (TagError.tooLong t t.length) ∧
    ∀ s : String, TagError.tooLong t t.length ≠ TagError.invalidCharacters s := by
  refine ⟨by simp [Destination.validateTag, h], fun s hs => by cases hs⟩

/-- A concrete string of 129 characters. -/
def t129 : String := String.mk (List.replicate 129 'a')

set_option maxRecDepth 4096 in
/-- Witness for claim C4 at a concrete 129-character string. -/
theorem c4_witness :
    Destination.validateTag t129 = Except.error (TagError.tooLong t129 t129.length) ∧
    ∀ s : String, TagError.tooLong t129 t129.length ≠ TagError.invalidCharacters s :=
  c4_too_long_reported_distinctly t129 (by decide)

/-- Claim C5: the registry login builder is deterministic, since it is
a pure function of the account id and region, and it produces the
verbatim command string
aws ecr get-login-password --region r pipe docker login
--username AWS --password-stdin a.dkr.ecr.r.amazonaws.com,
with login type ECR and the region echoed in the record. -/
theorem c5_login_builder_deterministic (a r : String) :
    buildLogin a r = buildLogin a r ∧
    (buildLogin a r).loginCommand =
      "aws ecr get-login-password --region " ++ r ++
      " | docker login --username AWS --password-stdin " ++
      a ++ ".dkr.ecr." ++ r ++ ".amazonaws.com" ∧
    (buildLogin a r).loginType = LoginType.ECR ∧
    (buildLogin a r).region = some r :=
  ⟨rfl, rfl, rfl, rfl⟩

/-- Claim C6: round trip for the registry-reference source: for every
repository and tag string, binding Source.ecr returns a configuration
whose imageTag is exactly the construction-time literal tag, which
resolves to that very string, unchanged. -/
theorem c6_ecr_source_round_trip (repository : Repository) (t : String)
    (env : BindEnv) (context : SourceContext) :
    ((Source.ecr repository t).bind env context).1.imageTag = CfnValue.lit t ∧
    (((Source.ecr repository t).bind env context).1.imageTag).resolve = some t :=
  ⟨rfl, rfl⟩

/-- Claim C7: when Destination.ecr is constructed with no tag option,
the configuration returned by bind has destinationTag absent, and
when a valid override is supplied at construction, the configuration
carries exactly that override. -/
theorem c7_destination_tag_default_and_override
    (repository : Repository) (role : String) (t : String)
    (d0 d1 : EcrDestination)
    (h0 : Destination.ecr repository none = Except.ok d0)
    (h1 : Destination.ecr repository (some { tag := some t }) = Except.ok d1) :
    (d0.bind role).1.destinationTag = none ∧
    (d1.bind role).1.destinationTag = some t := by
  have hd0 : d0 = { repository := repository, options := none } :=
    (Except.ok.inj h0).symm
  have hd1 : d1 = { repository := repository, options := some { tag := some t } } := by
    revert h1
    unfold Destination.ecr
    cases hv : Destination.validateTag t with
    | error e => intro h; exact absurd h (by simp [hv])
    | ok u => simp [hv]; intro h; exact h.symm
  subst hd0; subst hd1
  exact ⟨rfl, rfl⟩

/-- Witness for claim C7 at a concrete repository, role and the tag v1. -/
theorem c7_witness :
    ((({ repository := repoEx, options := none } : EcrDestination).bind "handler").1.destinationTag = none) ∧
    ((({ repository := repoEx, options := some { tag := some "v1" } } : EcrDestination).bind "handler").1.destinationTag = some "v1") :=
  c7_destination_tag_default_and_override repoEx "handler" "v1" _ _ rfl (by decide)

/-- Splitting a character list that contains no occurrence of the
delimiter yields the single group holding the whole list. -/
theorem splitOnChar_eq_singleton (d : Char) (l : List Char)
    (h : ∀ c ∈ l, c ≠ d) : splitOnChar d l = [l] := by
  induction l with
  | nil => rfl
  | cons c cs ih =>
    have hc : c ≠ d := h c (List.mem_cons_self _ _)
    have hcs : ∀ x ∈ cs, x ≠ d := fun x hx => h x (List.mem_cons_of_mem _ hx)
    simp [splitOnChar, ih hcs, hc]

/-- Claim C8, as amended: the claim asked bind to fail fast with a
malformed-reference error when the resolved URI is empty or has no
colon; the code performs no such check. Amended statement: for every
resolved URI containing no colon, DirectorySource.bind still returns
a configuration whose imageTag is the deferred select-of-split
expression over that URI, and that expression resolves to no value at
deployment time, so no usable tag is ever produced, but no bind-time
error is raised either. -/
theorem c8_no_uri_validation (path : String) (env : BindEnv) (context : SourceContext)
    (h : ∀ c ∈ (env.mkAsset path).imageUri.data, c ≠ ':') :
    ((Source.directory path).bind env context).1.imageTag
      = CfnValue.select 1 ':' (env.mkAsset path).imageUri ∧
    (((Source.directory path).bind env context).1.imageTag).resolve = none := by
  have hs := splitOnChar_eq_singleton ':' (env.mkAsset path).imageUri.data h
  refine ⟨rfl, ?_⟩
  simp [Source.bind, CfnValue.resolve, fnSplit, hs]

/-- Witness for the amended claim C8 at the empty resolved URI. -/
theorem c8_witness :
    ((Source.directory "app").bind envEmptyEx contextEx).1.imageTag
        = CfnValue.select 1 ':' (envEmptyEx.mkAsset "app").imageUri ∧
    (((Source.directory "app").bind envEmptyEx contextEx).1.imageTag).resolve = none :=
  c8_no_uri_validation "app" envEmptyEx contextEx (by decide)

/-- Counterexample to claim C8 as stated: with the resolved image URI
equal to the empty string, which is empty and contains no colon, bind
raises no error at all: it returns a full configuration record and
performs the pull grant, and only the later resolution of the tag
expression comes up empty. -/
theorem c8_counterexample_degenerate_uri_still_binds :
    ((Source.directory "app").bind envEmptyEx contextEx).1 =
      { imageUri := CfnValue.lit ""
        imageTag := CfnValue.select 1 ':' ""
        loginConfig := buildLogin "111111111111" "us-east-1" } ∧
    ((Source.directory "app").bind envEmptyEx contextEx).2
      = [Grant.pull repoEx "handler"] ∧
    (CfnValue.select 1 ':' "").resolve = none :=
  ⟨rfl, rfl, rfl⟩

/-- Counterexample to claim C9 as stated: on a concrete destination
instance, a repeated call of bind does not fail with any
already-bound error: every call, the second included, returns the
same successful configuration, and two calls perform the push-pull
grant twice. -/
theorem c9_counterexample_second_bind_succeeds :
    (destEx.bind "handler").1 =
      { destinationUri := "111111111111.dkr.ecr.us-east-1.amazonaws.com/repo"
        loginConfig := buildLogin "111111111111" "us-east-1"
        destinationTag := none } ∧
    (destEx.bind "handler").2 ++ (destEx.bind "handler").2
      = [Grant.pullPush repoEx "handler", Grant.pullPush repoEx "handler"] :=
  ⟨rfl, rfl⟩

/-- Claim C9, as amended: the code has no bound-state guard and no
already-bound failure exists anywhere in it; for the ECR destination
variant and for the registry-reference source variant, whose bind
keeps no state, a second call of bind on the same instance succeeds,
returns the same configuration, and performs its grant again. The
directory variant is not covered: its second bind re-runs the asset
construction against the same scope, which the external constructs
framework rejects with a duplicate-construct-id error, still not an
already-bound error. -/
theorem c9_rebind_unguarded (d : EcrDestination) (role : String)
    (repository : Repository) (t : String) (env : BindEnv) (context : SourceContext) :
    d.bind role = d.bind role ∧
    (d.bind role).2 = [Grant.pullPush d.repository role] ∧
    (Source.ecr repository t).bind env context = (Source.ecr repository t).bind env context ∧
    ((Source.ecr repository t).bind env context).2 = [Grant.pull repository context.handlerRole] :=
  ⟨rfl, rfl, rfl, rfl⟩

/-- Claim C10: the tag validator accepts a string exactly when its
length is at most 128 and it consists of a first character that is
neither a hyphen nor a dot followed by a nonempty run of characters
from the allowed alphabet; consequently it rejects every string of
length at most one, and it accepts the string !abc whose first
character lies outside the allowed alphabet, since only the
characters after the first are checked against it. -/
theorem c10_validator_characterization (t : String) :
    (Destination.validateTag t = Except.ok () ↔
      (t.length ≤ 128 ∧ ∃ c rest, t.data = c :: rest ∧
        c ≠ '-' ∧ c ≠ '.' ∧ rest ≠ [] ∧ ∀ x ∈ rest, validTagChar x = true)) ∧
    (t.length ≤ 1 → Destination.validateTag t ≠ Except.ok ()) ∧
    Destination.validateTag "!abc" = Except.ok () := by
  have hlen : t.length = t.data.length := rfl
  have hpat : matchesTagPattern t = true ↔
      ∃ c rest, t.data = c :: rest ∧
        c ≠ '-' ∧ c ≠ '.' ∧ rest ≠ [] ∧ ∀ x ∈ rest, validTagChar x = true := by
    unfold matchesTagPattern
    cases hd : t.data with
    | nil => simp
    | cons c rest =>
      have hne : (rest.isEmpty = false) ↔ rest ≠ [] := by cases rest <;> simp
      simp only [Bool.and_eq_true, decide_eq_true_eq, Bool.not_eq_true',
        List.all_eq_true, hne]
      constructor
      · rintro ⟨⟨⟨h1, h2⟩, h3⟩, h4⟩
        exact ⟨c, rest, rfl, h1, h2, h3, h4⟩
      · rintro ⟨c2, rest2, heq, h1, h2, h3, h4⟩
        cases heq
        exact ⟨⟨⟨h1, h2⟩, h3⟩, h4⟩
  have hiff : Destination.validateTag t = Except.ok () ↔
      (t.length ≤ 128 ∧ matchesTagPattern t = true) := by
    unfold Destination.validateTag
    by_cases h1 : t.length > 128
    · simp only [h1, if_true]
      constructor
      · intro h; cases h
      · rintro ⟨h2, -⟩; omega
    · have h2 : t.length ≤ 128 := by omega
      by_cases hm : matchesTagPattern t
      · simp [h1, hm, h2]
      · simp [h1, hm]
  refine ⟨hiff.trans (and_congr_right fun _ => hpat), ?_, by decide⟩
  intro hle hok
  obtain ⟨-, hm⟩ := hiff.mp hok
  obtain ⟨c, rest, hd, -, -, hrest, -⟩ := hpat.mp hm
  have h2 : t.data.length ≥ 2 := by
    rw [hd]
    cases rest with
    | nil => exact absurd rfl hrest
    | cons x xs => simp only [List.length_cons]; omega
  omega

/-- Witness for claim C10 at the one-character string a, discharging
the length hypothesis of the rejection clause. -/
theorem c10_witness : Destination.validateTag "a" ≠ Except.ok () :=
  (c10_validator_characterization "a").2.1 (by decide)

end DockerDeploy
